import Mathlib

/-!
Verification of `email_automation.py` (email generation via a remote text
model plus SMTP dispatch).  Python strings are modelled as `List Char`
(`PyStr`), and the handful of Python string methods the code uses
(`strip`, `lower`, `startswith`, `find`, `split(sep, 1)`, `replace`) are
given executable Lean counterparts with Python semantics on the inputs the
program manipulates (ASCII case folding, ASCII whitespace).
-/

/-- Python strings, modelled as lists of characters. -/
abbrev PyStr := List Char

/-- Convenience coercion from a Lean string literal. -/
def pys (s : String) : PyStr := s.data

/-- ASCII whitespace, matching the characters `str.strip()` removes for the
ASCII text this program handles: space, tab, newline, carriage return,
vertical tab, form feed. -/
def pySpace (c : Char) : Bool :=
  c == ' ' || c == '\t' || c == '\n' || c == '\r' || c == '\x0b' || c == '\x0c'

/-- Python `s.strip()`: drop leading and trailing whitespace. -/
def pyStrip (s : PyStr) : PyStr :=
  (((s.dropWhile pySpace).reverse.dropWhile pySpace)).reverse

/-- Python `s.lower()` on ASCII text: character-wise lowercasing. -/
def pyLower (s : PyStr) : PyStr := s.map Char.toLower

/-- Does `s` start with `t`?  (Python `s.startswith(t)`.) -/
def strStarts : PyStr → PyStr → Bool
  | [], _ => true
  | _ :: _, [] => false
  | a :: as, b :: bs => a == b && strStarts as bs

/-- Python `s.find(t)`: index of the first occurrence of `t` in `s`, `none`
standing for Python's `-1`. -/
def findSub (t : PyStr) : PyStr → Option Nat
  | [] => if t.isEmpty then some 0 else none
  | c :: rest =>
    if strStarts t (c :: rest) then some 0
    else (findSub t rest).map (· + 1)

/-- Python `s.split(sep, 1)` for non-empty `sep`: split on the first
occurrence only, giving one or two parts. -/
def pySplit1 (sep s : PyStr) : List PyStr :=
  match findSub sep s with
  | none => [s]
  | some i => [s.take i, s.drop (i + sep.length)]

/-- Fuel-driven worker for `pyReplace` (fuel bounds the number of characters
consumed, so `s.length` steps always suffice). -/
def replAux (old new : PyStr) : Nat → PyStr → PyStr
  | 0, s => s
  | _ + 1, [] => []
  | fuel + 1, c :: rest =>
    if strStarts old (c :: rest) && !old.isEmpty then
      new ++ replAux old new fuel (rest.drop (old.length - 1))
    else
      c :: replAux old new fuel rest

/-- Python `s.replace(old, new)` for non-empty `old`: replace every
non-overlapping occurrence, scanning left to right. -/
def pyReplace (old new s : PyStr) : PyStr := replAux old new s.length s

/-! ### The data of `email_automation.py` -/

/-- One entry of the template registry (`TEMPLATES` values). -/
structure Template where
  instruction : PyStr
  placeholders : List PyStr
deriving DecidableEq

/-- `FEW_SHOT_EXAMPLES`: the fixed (subject, message) demonstration pairs. -/
def FEW_SHOT_EXAMPLES : List (PyStr × PyStr) :=
  [ ( pys "Request for Meeting",
      ("I hope you're doing well. I would like to schedule a meeting tomorrow to discuss the progress of our current project.\n\nRegards,\nAqib").data ),
    ( pys "Update on Task",
      ("This is to inform you that I have completed the assigned task and shared the required documents.\n\nRegards,\nAqib").data ) ]

/-- `TEMPLATES`: the template registry, an insertion-ordered key/value map. -/
def TEMPLATES : List (PyStr × Template) :=
  [ ( pys "leave_request",
      { instruction := ("Using the professional email format shown in the examples, write a short, 2-4 line email requesting one day of leave tomorrow. Keep it polite and concise.").data,
        placeholders := [ pys "reason", pys "date"] } ),
    ( pys "meeting_request",
      { instruction := ("Using the professional email format shown in the examples, write an email requesting to schedule a meeting to discuss project progress. Suggest two time slots.").data,
        placeholders := [ pys "timeslots"] } ),
    ( pys "task_update",
      { instruction := ("Using the professional email format shown in the examples, write a short update informing that the assigned task is complete and attachments were shared.").data,
        placeholders := [] } ) ]

/-- The error message `build_prompt` raises for an unknown key
(`ValueError(f"Unknown template: {template_key}")`). -/
def unknownTemplateMsg (template_key : PyStr) : PyStr :=
  ("Unknown template: ").data ++ template_key

/-- `build_prompt`, generalised over the registry data it reads
(`few_shot_examples` and `templates` are the module-level constants in the
source; `generalised` so the state-threaded variant below can be related to
it).  The `ValueError` raise is modelled as `Except.error`.  The source
guard is `if not template:`; every registry value is a non-empty dict, so
the guard fires exactly when the key is absent. -/
def build_prompt_core (few_shot_examples : List (PyStr × PyStr))
    (templates : List (PyStr × Template))
    (subject template_key : PyStr) (context : List (PyStr × PyStr)) :
    Except PyStr PyStr :=
  let prompt := ("You are a helpful assistant that writes professional emails. Follow the exact format in the examples.\n\n").data
  let prompt := few_shot_examples.foldl
    (fun p ex => p ++ ("Subject: ").data ++ ex.1 ++ ("\nMessage:\n").data ++ ex.2 ++ ("\n\n").data)
    prompt
  let prompt := prompt ++ ("Now write a new email.\nSubject: ").data ++ subject ++ ("\n").data
  match templates.lookup template_key with
  | none => .error (unknownTemplateMsg template_key)
  | some template =>
    let prompt := prompt ++ ("Message:\n").data ++ template.instruction
    let prompt :=
      if context.isEmpty then prompt
      else context.foldl
        (fun p kv => p ++ (" ").data ++ kv.1 ++ ("=").data ++ kv.2 ++ (";").data)
        (prompt ++ ("\nContext:").data)
    .ok (prompt ++ ("\n\nRespond only with the email in the exact format: Subject: <...>\nMessage:\n<...>\nRegards,\nAqib").data)

/-- `build_prompt(subject, template_key, context)` from the source. -/
def build_prompt (subject template_key : PyStr) (context : List (PyStr × PyStr)) :
    Except PyStr PyStr :=
  build_prompt_core FEW_SHOT_EXAMPLES TEMPLATES subject template_key context

/-- The response-parsing logic of `generate_email` (lines 99-118): strips the
raw text, then attempts subject/message extraction, `fallback` being the
caller-supplied `subject` argument used as fallback subject. -/
def parse_response (fallback raw : PyStr) : PyStr × PyStr :=
  let content := pyStrip raw
  if strStarts (pys "subject:") (pyLower content) then
    let lower := pyLower content
    let blocks :=
      match findSub (pys "\nmessage:\n") lower with
      | some idx => (content.take idx, content.drop (idx + (pys "\nmessage:\n").length))
      | none =>
        match pySplit1 (pys "\nMessage:\n") content with
        | [a, b] => (a, b)
        | _ => (fallback, content)
    (pyStrip (pyReplace (pys "Subject:") [] blocks.1), pyStrip blocks.2)
  else
    (fallback, content)

/-- `generate_email(subject, template_key, context)`, with the remote
`_call_gemini_chat` abstracted as an oracle `gemini` from prompt to raw
text (the oracle's output is a string, as `_call_gemini_chat` returns one,
so the `isinstance` branch of line 99 always takes the `.strip()` path,
performed inside `parse_response`). -/
def generate_email (gemini : PyStr → PyStr) (subject template_key : PyStr)
    (context : List (PyStr × PyStr)) : Except PyStr (PyStr × PyStr) :=
  match build_prompt subject template_key context with
  | .error e => .error e
  | .ok prompt => .ok (parse_response subject (gemini prompt))

/-! ### Text extraction of `_call_gemini_chat` (lines 87-94)

The response object is modelled by the attributes the code reads: an
optional direct `text` field, a candidate list whose members carry optional
`text`/`content` fields, and the `str(...)` representations the fallbacks
use.  Python truthiness on an optional string (`if not text`, `a or b`)
is `pyTruthy`. -/

/-- One element of `resp.candidates`, with the attributes the code reads
and its `str(cand)` rendering. -/
structure Candidate where
  text : Option PyStr
  content : Option PyStr
  str_repr : PyStr
deriving DecidableEq

/-- The generation response object, with the attributes the code reads and
its `str(resp)` rendering. -/
structure GenResponse where
  text : Option PyStr
  candidates : List Candidate
  str_repr : PyStr
deriving DecidableEq

/-- Python truthiness of an optional string: `None` and `""` are falsy. -/
def pyTruthy : Option PyStr → Bool
  | none => false
  | some s => !s.isEmpty

/-- Python `a or b` on optional strings. -/
def pyOrOpt (a b : Option PyStr) : Option PyStr :=
  if pyTruthy a then a else b

/-- Python `a or b` where `b` is a plain string (so the result is one). -/
def pyOrStr (a : Option PyStr) (b : PyStr) : PyStr :=
  if pyTruthy a then a.getD [] else b

/-- The text-extraction tail of `_call_gemini_chat`: `text = getattr(resp,
"text", None)`; on falsy `text`, read the first candidate's `text` or
`content` or `str(cand)` (the `IndexError` of `resp.candidates[0]` on an
empty candidate list lands in the `except` arm, giving `str(resp)`);
finally `return text or ""`. -/
def extract_text (resp : GenResponse) : PyStr :=
  let text := resp.text
  let text :=
    if !pyTruthy text then
      some (match resp.candidates with
        | [] => resp.str_repr
        | cand :: _ => pyOrStr (pyOrOpt cand.text cand.content) cand.str_repr)
    else text
  pyOrStr text []

/-- The extraction chain as the spec sentence words it (`Modelled from the
spec`, for comparison with `extract_text` only): direct text field if
present and non-empty; otherwise the first candidate's text or content; if
that is also absent, a string representation of the ENTIRE RESPONSE object;
empty string as the final result if all else fails. -/
def extract_text_claim (resp : GenResponse) : PyStr :=
  pyOrStr (pyOrOpt resp.text
      (pyOrOpt (resp.candidates.head?.bind Candidate.text)
        (pyOrOpt (resp.candidates.head?.bind Candidate.content)
          (some resp.str_repr))))
    []

/-- The extraction chain with the candidate fallback stated correctly:
when a first candidate exists but its text and content are absent or
empty, the fallback is that candidate's own string representation; the
whole response's representation is used only when there is no first
candidate. -/
def extract_text_amended (resp : GenResponse) : PyStr :=
  pyOrStr (pyOrOpt resp.text
      (some (match resp.candidates with
        | [] => resp.str_repr
        | cand :: _ => pyOrStr (pyOrOpt cand.text cand.content) cand.str_repr)))
    []

/-! ### `send_via_smtp` (lines 120-131) -/

/-- The process-wide transport configuration read from the environment:
`os.getenv` yields `none` for an unset variable. -/
structure SmtpConfig where
  smtp_server : Option PyStr
  smtp_port : Nat
  smtp_user : Option PyStr
  smtp_pass : Option PyStr
deriving DecidableEq

/-- The transport session `send_via_smtp` opens on success: the connection
parameters and the single message handed to `send_message`, recording that
`starttls` and `login` ran. -/
structure SmtpSession where
  host : PyStr
  port : Nat
  starttls : Bool
  login_user : PyStr
  login_pass : PyStr
  mail_from : PyStr
  mail_to : PyStr
  mail_subject : PyStr
  mail_body : PyStr
deriving DecidableEq

/-- The `RuntimeError` message of the missing-configuration guard. -/
def smtpConfigMissingMsg : PyStr :=
  ("SMTP settings missing in .env (SMTP_SERVER/SMTP_USER/SMTP_PASS).").data

/-- `send_via_smtp(to_email, subject, message_body, sender_display_name)`:
the guard `if not SMTP_SERVER or not SMTP_USER or not SMTP_PASS` raises
before any network use; otherwise exactly one session is opened and one
message sent.  An `.ok` result carries the session, so an `.error` result
entails that no session was opened. -/
def send_via_smtp (cfg : SmtpConfig) (to_email subject message_body sender_display_name : PyStr) :
    Except PyStr SmtpSession :=
  if !pyTruthy cfg.smtp_server || !pyTruthy cfg.smtp_user || !pyTruthy cfg.smtp_pass then
    .error smtpConfigMissingMsg
  else
    let user := cfg.smtp_user.getD []
    .ok { host := cfg.smtp_server.getD []
          port := cfg.smtp_port
          starttls := true
          login_user := user
          login_pass := cfg.smtp_pass.getD []
          mail_from := sender_display_name ++ (" <").data ++ user ++ (">").data
          mail_to := to_email
          mail_subject := subject
          mail_body := message_body }

/-! ### State-threaded `build_prompt` (for the frame claim)

Every statement of `build_prompt` either extends the local `prompt` string
or reads the context / module-level registries; the translation below
threads that ambient state through each step exactly as the statements
execute, so that what the function leaves the state as is a theorem, not a
modelling assumption. -/

/-- The mutable data visible to `build_prompt`: the two module-level
registries and the caller's context dictionary. -/
structure BuildState where
  few_shot_examples : List (PyStr × PyStr)
  templates : List (PyStr × Template)
  context : List (PyStr × PyStr)
deriving DecidableEq

/-- `build_prompt` with the ambient state threaded statement by statement:
the `for ex in FEW_SHOT_EXAMPLES` and `for k,v in context.items()` loops
carry the state through every iteration, the registry lookup reads the
state, and each step returns the state it leaves behind. -/
def build_prompt_st (subject template_key : PyStr) (st : BuildState) :
    Except PyStr PyStr × BuildState :=
  let prompt := ("You are a helpful assistant that writes professional emails. Follow the exact format in the examples.\n\n").data
  let step1 := st.few_shot_examples.foldl
    (fun acc ex =>
      (acc.1 ++ ("Subject: ").data ++ ex.1 ++ ("\nMessage:\n").data ++ ex.2 ++ ("\n\n").data, acc.2))
    (prompt, st)
  let prompt := step1.1 ++ ("Now write a new email.\nSubject: ").data ++ subject ++ ("\n").data
  let st := step1.2
  match st.templates.lookup template_key with
  | none => (.error (unknownTemplateMsg template_key), st)
  | some template =>
    let prompt := prompt ++ ("Message:\n").data ++ template.instruction
    let step2 :=
      if st.context.isEmpty then (prompt, st)
      else st.context.foldl
        (fun acc kv => (acc.1 ++ (" ").data ++ kv.1 ++ ("=").data ++ kv.2 ++ (";").data, acc.2))
        (prompt ++ ("\nContext:").data, st)
    (.ok (step2.1 ++ ("\n\nRespond only with the email in the exact format: Subject: <...>\nMessage:\n<...>\nRegards,\nAqib").data), step2.2)

/-! ### Lemmas about the string primitives -/

/-- `strStarts t s` holds exactly when `s` extends `t`. -/
theorem strStarts_iff (t s : PyStr) : strStarts t s = true ↔ ∃ u, s = t ++ u := by
  induction t generalizing s with
  | nil => simp [strStarts]
  | cons a as ih =>
    cases s with
    | nil => simp [strStarts]
    | cons b bs =>
      simp only [strStarts, Bool.and_eq_true, beq_iff_eq, ih, List.cons_append]
      constructor
      · rintro ⟨rfl, u, rfl⟩
        exact ⟨u, rfl⟩
      · rintro ⟨u, h⟩
        injection h with h1 h2
        exact ⟨h1.symm, u, h2⟩

/-- `findSub t s` succeeds exactly when `t` occurs as a contiguous substring
of `s`. -/
theorem findSub_isSome_iff (t s : PyStr) :
    (findSub t s).isSome = true ↔ ∃ a b, s = a ++ t ++ b := by
  induction s with
  | nil =>
    cases t with
    | nil => simp [findSub]
    | cons x xs => simp [findSub]
  | cons c rest ih =>
    by_cases h : strStarts t (c :: rest) = true
    · have hfs : findSub t (c :: rest) = some 0 := by simp [findSub, h]
      rw [hfs]
      simp only [Option.isSome_some, true_iff]
      obtain ⟨u, hu⟩ := (strStarts_iff t (c :: rest)).1 h
      exact ⟨[], u, by simpa using hu⟩
    · have hfs : findSub t (c :: rest) = (findSub t rest).map (· + 1) := by
        simp [findSub, h]
      have hmap : ((findSub t rest).map (· + 1)).isSome = (findSub t rest).isSome := by
        cases findSub t rest <;> rfl
      rw [hfs, hmap, ih]
      constructor
      · rintro ⟨a, b, rfl⟩
        exact ⟨c :: a, b, by simp⟩
      · rintro ⟨a, b, hab⟩
        cases a with
        | nil =>
          exact absurd ((strStarts_iff t (c :: rest)).2 ⟨b, by simpa using hab⟩) h
        | cons x a' =>
          injection hab with h1 h2
          exact ⟨a', b, h2⟩

/-- Occurrence of a substring is preserved by character-wise mapping. -/
theorem findSub_map_isSome (f : Char → Char) (t s : PyStr)
    (h : (findSub t s).isSome = true) :
    (findSub (t.map f) (s.map f)).isSome = true := by
  rw [findSub_isSome_iff] at h ⊢
  obtain ⟨a, b, rfl⟩ := h
  exact ⟨a.map f, b.map f, by simp⟩

/-- If the lowercase copy of `s` has no occurrence of `"\nmessage:\n"`, the
case-sensitive `split('\nMessage:\n', 1)` cannot find one either, so the
split returns the single part `[s]`. -/
theorem csSplit_single (s : PyStr)
    (h : findSub (pys "\nmessage:\n") (pyLower s) = none) :
    pySplit1 (pys "\nMessage:\n") s = [s] := by
  unfold pySplit1
  cases hf : findSub (pys "\nMessage:\n") s with
  | none => rfl
  | some i =>
    exfalso
    have h1 : (findSub (pys "\nMessage:\n") s).isSome = true := by rw [hf]; rfl
    have h2 := findSub_map_isSome Char.toLower (pys "\nMessage:\n") s h1
    have h3 : (pys "\nMessage:\n").map Char.toLower = pys "\nmessage:\n" := by decide
    rw [h3] at h2
    have h4 : s.map Char.toLower = pyLower s := rfl
    rw [h4, h] at h2
    simp at h2

/-- Dropping a satisfied-predicate run is idempotent. -/
theorem dropWhile_dropWhile (p : Char → Bool) (l : PyStr) :
    (l.dropWhile p).dropWhile p = l.dropWhile p := by
  induction l with
  | nil => rfl
  | cons a t ih =>
    by_cases h : p a
    · simp [List.dropWhile_cons, h, ih]
    · simp [List.dropWhile_cons, h]

/-- `dropWhile` removes an initial segment. -/
theorem dropWhile_append_exists (p : Char → Bool) (l : PyStr) :
    ∃ w, w ++ l.dropWhile p = l := by
  induction l with
  | nil => exact ⟨[], rfl⟩
  | cons a t ih =>
    by_cases h : p a
    · obtain ⟨w, hw⟩ := ih
      exact ⟨a :: w, by simp [List.dropWhile_cons, h, hw]⟩
    · exact ⟨[], by simp [List.dropWhile_cons, h]⟩

/-- A list whose head does not satisfy `p` is untouched by `dropWhile`, and
this is inherited by each of its initial segments. -/
theorem dropWhile_eq_self_of_take (p : Char → Bool) (u v w : PyStr)
    (hu : u.dropWhile p = u) (hv : v ++ w = u) : v.dropWhile p = v := by
  cases v with
  | nil => rfl
  | cons a v' =>
    have ha : p a = false := by
      by_contra hcon
      have ha' : p a = true := by
        cases hpa : p a with
        | false => exact absurd hpa hcon
        | true => rfl
      have : u.dropWhile p = (v' ++ w).dropWhile p := by
        rw [← hv]; simp [List.dropWhile_cons, ha']
      have hlen : u.length ≤ (v' ++ w).length := by
        rw [hu] at this
        calc u.length = ((v' ++ w).dropWhile p).length := by rw [← this]
          _ ≤ (v' ++ w).length := (List.dropWhile_sublist p).length_le
      rw [← hv] at hlen
      simp at hlen
    simp [List.dropWhile_cons, ha]

/-- Python `strip` is idempotent. -/
theorem pyStrip_idem (s : PyStr) : pyStrip (pyStrip s) = pyStrip s := by
  have hu : (s.dropWhile pySpace).dropWhile pySpace = s.dropWhile pySpace :=
    dropWhile_dropWhile pySpace s
  obtain ⟨w, hw⟩ := dropWhile_append_exists pySpace (s.dropWhile pySpace).reverse
  have hpre : ((s.dropWhile pySpace).reverse.dropWhile pySpace).reverse ++ w.reverse
      = s.dropWhile pySpace := by
    have h := congrArg List.reverse hw
    simpa using h
  have hr := dropWhile_eq_self_of_take pySpace _ _ _ hu hpre
  unfold pyStrip
  rw [hr, List.reverse_reverse, dropWhile_dropWhile]

/-- A fold that carries a second component along unchanged leaves it
unchanged. -/
theorem foldl_pair {α β σ : Type} (f : β → α → β) (l : List α) (b : β) (st : σ) :
    l.foldl (fun acc x => (f acc.1 x, acc.2)) (b, st) = (l.foldl f b, st) := by
  induction l generalizing b with
  | nil => rfl
  | cons a t ih => simpa [List.foldl_cons] using ih (f b a)

/-! ### Claim theorems -/

/-- C1 (counterexample): on raw text `"SUBJECT: Hi\nMESSAGE:\nhello"` the
parser does NOT return subject `"Hi"`: the case-sensitive
`replace('Subject:', '')` leaves the uppercase prefix in place, so the
returned subject is `"SUBJECT: Hi"`. -/
theorem c1_counterexample :
    parse_response (pys "Orig") (pys "SUBJECT: Hi\nMESSAGE:\nhello") =
      (pys "SUBJECT: Hi", pys "hello") ∧
    (parse_response (pys "Orig") (pys "SUBJECT: Hi\nMESSAGE:\nhello")).1 ≠ pys "Hi" := by
  constructor
  · rfl
  · decide

/-- C1 (amended): for raw text `"SUBJECT: Hi\nMESSAGE:\nhello"` and any
fallback subject, the split markers ARE matched case-insensitively — the
message `"hello"` is extracted — but the `"Subject:"` prefix strip is a
case-sensitive literal replace, so the all-uppercase prefix survives and
the returned subject is `"SUBJECT: Hi"`. -/
theorem c1_amended_parse (fallback : PyStr) :
    parse_response fallback (pys "SUBJECT: Hi\nMESSAGE:\nhello") =
      (pys "SUBJECT: Hi", pys "hello") := rfl

/-- C2: the parser is a total function: for every raw text and fallback
subject it returns a subject/message pair of strings (and when the trimmed
text lacks the `"subject:"` lead-in, those are the fallback subject and
the trimmed text). -/
theorem c2_parser_total (raw fallback : PyStr) :
    ∃ subj msg : PyStr,
      parse_response fallback raw = (subj, msg) ∧
      (strStarts (pys "subject:") (pyLower (pyStrip raw)) = false →
        subj = fallback ∧ msg = pyStrip raw) := by
  refine ⟨(parse_response fallback raw).1, (parse_response fallback raw).2, rfl, ?_⟩
  intro h
  have : parse_response fallback raw = (fallback, pyStrip raw) := by
    simp [parse_response, h]
  rw [this]
  exact ⟨rfl, rfl⟩

/-- C2 (witness): total parse at a concrete unstructured input. -/
theorem c2_witness :
    ∃ subj msg : PyStr,
      parse_response (pys "Original") (pys "plain text") = (subj, msg) ∧
      (strStarts (pys "subject:") (pyLower (pyStrip (pys "plain text"))) = false →
        subj = pys "Original" ∧ msg = pyStrip (pys "plain text")) :=
  c2_parser_total (pys "plain text") (pys "Original")

/-- C3: for every subject and context, a template key absent from the
registry makes `build_prompt` fail with the `Unknown template` error, and
`generate_email` fails identically whatever the remote generation oracle
would answer — i.e. before any remote call can matter. -/
theorem c3_unknown_template (subject template_key : PyStr)
    (context : List (PyStr × PyStr))
    (h : TEMPLATES.lookup template_key = none) :
    build_prompt subject template_key context =
      .error (unknownTemplateMsg template_key) ∧
    ∀ gemini : PyStr → PyStr,
      generate_email gemini subject template_key context =
        .error (unknownTemplateMsg template_key) := by
  have hb : build_prompt subject template_key context =
      .error (unknownTemplateMsg template_key) := by
    unfold build_prompt build_prompt_core
    rw [h]
  exact ⟨hb, fun gemini => by unfold generate_email; rw [hb]⟩

/-- C3 (witness): the key `"missing_key"` is not in the registry, and both
operations fail with the `Unknown template` error under any oracle. -/
theorem c3_witness :
    TEMPLATES.lookup (pys "missing_key") = none ∧
    build_prompt (pys "S") (pys "missing_key") [] =
      .error (unknownTemplateMsg (pys "missing_key")) ∧
    generate_email (fun _ => []) (pys "S") (pys "missing_key") [] =
      .error (unknownTemplateMsg (pys "missing_key")) := by
  have h : TEMPLATES.lookup (pys "missing_key") = none := by decide
  have hc := c3_unknown_template (pys "S") (pys "missing_key") [] h
  exact ⟨h, hc.1, hc.2 (fun _ => [])⟩

/-- C4: if any of the transport host, account identifier, or secret is
absent from configuration, `send_via_smtp` fails with the missing-settings
error and no transport session is ever opened (there is no session an `.ok`
result could carry). -/
theorem c4_transport_config_missing (cfg : SmtpConfig)
    (to_email subject message_body sender_display_name : PyStr)
    (h : cfg.smtp_server = none ∨ cfg.smtp_user = none ∨ cfg.smtp_pass = none) :
    send_via_smtp cfg to_email subject message_body sender_display_name =
      .error smtpConfigMissingMsg ∧
    ∀ sess : SmtpSession,
      send_via_smtp cfg to_email subject message_body sender_display_name ≠
        .ok sess := by
  have hguard : send_via_smtp cfg to_email subject message_body sender_display_name =
      .error smtpConfigMissingMsg := by
    rcases h with h | h | h <;> simp [send_via_smtp, pyTruthy, h]
  exact ⟨hguard, fun sess => by rw [hguard]; exact fun hcon => Except.noConfusion hcon⟩

/-- C4 (witness): with the host unset the send fails and opens nothing. -/
theorem c4_witness :
    send_via_smtp
        { smtp_server := none, smtp_port := 587,
          smtp_user := some (pys "user"), smtp_pass := some (pys "secret") }
        (pys "to@x.com") (pys "Subj") (pys "Body") (pys "Aqib") =
      .error smtpConfigMissingMsg ∧
    ∀ sess : SmtpSession,
      send_via_smtp
          { smtp_server := none, smtp_port := 587,
            smtp_user := some (pys "user"), smtp_pass := some (pys "secret") }
          (pys "to@x.com") (pys "Subj") (pys "Body") (pys "Aqib") ≠
        .ok sess :=
  c4_transport_config_missing _ _ _ _ _ (Or.inl rfl)

/-- C5: for the raw text `"Subject: Foo\nMessage:\nBar baz\nRegards,\nX"`
and any fallback subject, parsing yields subject `"Foo"` and message
`"Bar baz\nRegards,\nX"` — the trailing signature stays in the message,
the split being at the first (and only) marker occurrence. -/
theorem c5_parse_roundtrip (fallback : PyStr) :
    parse_response fallback (pys "Subject: Foo\nMessage:\nBar baz\nRegards,\nX") =
      (pys "Foo", pys "Bar baz\nRegards,\nX") := rfl

/-- C6: for every raw text whose trimmed form does not start with
`"subject:"` case-insensitively, the parser returns the fallback subject
unchanged and the entire trimmed raw text verbatim as the message. -/
theorem c6_fallback (raw fallback : PyStr)
    (h : strStarts (pys "subject:") (pyLower (pyStrip raw)) = false) :
    parse_response fallback raw = (fallback, pyStrip raw) := by
  simp [parse_response, h]

/-- C6 (witness): the unstructured input of the spec's example. -/
theorem c6_witness :
    strStarts (pys "subject:")
        (pyLower (pyStrip (pys "Just a message with no structure"))) = false ∧
    parse_response (pys "Original") (pys "Just a message with no structure") =
      (pys "Original", pyStrip (pys "Just a message with no structure")) :=
  ⟨by decide, c6_fallback _ _ (by decide)⟩

/-- C7 (counterexample): the subject clean-up is `replace`, not a prefix
strip: on `"Subject: Fwd: Subject: Hi\nMessage:\nBody"` every occurrence of
`"Subject:"` is removed, giving `"Fwd:  Hi"` instead of the
prefix-stripped `"Fwd: Subject: Hi"` the claim predicts. -/
theorem c7_counterexample :
    strStarts (pys "subject:")
        (pyLower (pyStrip (pys "Subject: Fwd: Subject: Hi\nMessage:\nBody"))) = true ∧
    findSub (pys "\nmessage:\n")
        (pyLower (pyStrip (pys "Subject: Fwd: Subject: Hi\nMessage:\nBody"))) = some 25 ∧
    parse_response (pys "F") (pys "Subject: Fwd: Subject: Hi\nMessage:\nBody") =
      (pys "Fwd:  Hi", pys "Body") ∧
    (parse_response (pys "F") (pys "Subject: Fwd: Subject: Hi\nMessage:\nBody")).1 ≠
      pys "Fwd: Subject: Hi" := by
  refine ⟨by decide, by decide, rfl, by decide⟩

/-- C7 (amended): when the trimmed text starts with `"subject:"`
case-insensitively and the lowercase copy contains `"\nmessage:\n"` at
`idx`, the parsed subject is the text before the marker with EVERY
occurrence of the literal `"Subject:"` removed (not just a leading one)
and the result trimmed, and the parsed message is the trimmed text after
the marker. -/
theorem c7_amended_extraction (raw fallback : PyStr) (idx : Nat)
    (h1 : strStarts (pys "subject:") (pyLower (pyStrip raw)) = true)
    (h2 : findSub (pys "\nmessage:\n") (pyLower (pyStrip raw)) = some idx) :
    parse_response fallback raw =
      (pyStrip (pyReplace (pys "Subject:") [] ((pyStrip raw).take idx)),
       pyStrip ((pyStrip raw).drop (idx + (pys "\nmessage:\n").length))) := by
  simp [parse_response, h1, h2]

/-- C7 (witness): structured extraction at a concrete input. -/
theorem c7_witness :
    strStarts (pys "subject:")
        (pyLower (pyStrip (pys "Subject: A\nMessage:\nB"))) = true ∧
    findSub (pys "\nmessage:\n")
        (pyLower (pyStrip (pys "Subject: A\nMessage:\nB"))) = some 10 ∧
    parse_response (pys "F") (pys "Subject: A\nMessage:\nB") =
      (pyStrip (pyReplace (pys "Subject:") []
          ((pyStrip (pys "Subject: A\nMessage:\nB")).take 10)),
       pyStrip ((pyStrip (pys "Subject: A\nMessage:\nB")).drop
          (10 + (pys "\nmessage:\n").length))) :=
  ⟨by decide, by decide, c7_amended_extraction _ _ 10 (by decide) (by decide)⟩

/-- C8 (counterexample): when a first candidate exists but carries neither
text nor content, the extraction falls back to the string representation of
THAT CANDIDATE, not of the entire response object as the claim's chain
states. -/
theorem c8_counterexample :
    extract_text
        { text := none,
          candidates := [{ text := none, content := none, str_repr := pys "CAND" }],
          str_repr := pys "RESP" } = pys "CAND" ∧
    extract_text_claim
        { text := none,
          candidates := [{ text := none, content := none, str_repr := pys "CAND" }],
          str_repr := pys "RESP" } = pys "RESP" ∧
    pys "CAND" ≠ pys "RESP" := by
  refine ⟨rfl, rfl, by decide⟩

/-- C8 (amended): the extraction chain is: the direct text field if present
and non-empty; otherwise the first candidate's text, else its content, else
that candidate's string representation; the representation of the entire
response object only when there is no first candidate; and the final
`or ""` step — i.e. `extract_text` equals the amended chain on every
response. -/
theorem c8_amended_chain (resp : GenResponse) :
    extract_text resp = extract_text_amended resp := by
  rcases resp with ⟨t, cs, r⟩
  cases t with
  | none => rfl
  | some s =>
    cases h : s.isEmpty <;>
      simp [extract_text, extract_text_amended, pyOrOpt, pyOrStr, pyTruthy, h]

/-- C9 (counterexample): when the trimmed text starts with `"subject:"`
but no marker is found, the fallback subject is NOT returned verbatim: it
too goes through `replace('Subject:', '').strip()`, so the fallback
`" Original "` comes back as `"Original"`. -/
theorem c9_counterexample :
    findSub (pys "\nmessage:\n") (pyLower (pyStrip (pys "subject: x"))) = none ∧
    parse_response (pys " Original ") (pys "subject: x") =
      (pys "Original", pys "subject: x") ∧
    (parse_response (pys " Original ") (pys "subject: x")).1 ≠ pys " Original " := by
  refine ⟨by decide, rfl, by decide⟩

/-- C9 (amended): if the lowercase copy of a string has no occurrence of
`"\nmessage:\n"`, the case-sensitive split on `"\nMessage:\n"` yields a
single part, so the case-sensitive branch never produces a two-part split;
consequently, whenever the case-insensitive search fails on the trimmed
raw text, the message is the whole trimmed text, and the subject is the
fallback subject run through the `"Subject:"` removal and trim when the
text starts with `"subject:"`, the fallback verbatim otherwise. -/
theorem c9_amended_split (s raw fallback : PyStr)
    (hs : findSub (pys "\nmessage:\n") (pyLower s) = none)
    (hraw : findSub (pys "\nmessage:\n") (pyLower (pyStrip raw)) = none) :
    pySplit1 (pys "\nMessage:\n") s = [s] ∧
    parse_response fallback raw =
      (if strStarts (pys "subject:") (pyLower (pyStrip raw)) = true
       then (pyStrip (pyReplace (pys "Subject:") [] fallback), pyStrip raw)
       else (fallback, pyStrip raw)) := by
  refine ⟨csSplit_single s hs, ?_⟩
  by_cases h : strStarts (pys "subject:") (pyLower (pyStrip raw)) = true
  · have hsp := csSplit_single (pyStrip raw) hraw
    simp [parse_response, h, hraw, hsp, pyStrip_idem]
  · have h' : strStarts (pys "subject:") (pyLower (pyStrip raw)) = false :=
      Bool.eq_false_iff.mpr h
    simp [parse_response, h', h]

/-- C9 (witness): the single-part split and the marker-less parse at
concrete inputs. -/
theorem c9_witness :
    findSub (pys "\nmessage:\n") (pyLower (pys "no marker here")) = none ∧
    findSub (pys "\nmessage:\n") (pyLower (pyStrip (pys "subject: x"))) = none ∧
    pySplit1 (pys "\nMessage:\n") (pys "no marker here") = [pys "no marker here"] ∧
    parse_response (pys " Original ") (pys "subject: x") =
      (if strStarts (pys "subject:") (pyLower (pyStrip (pys "subject: x"))) = true
       then (pyStrip (pyReplace (pys "Subject:") [] (pys " Original ")),
             pyStrip (pys "subject: x"))
       else (pys " Original ", pyStrip (pys "subject: x"))) := by
  have hc := c9_amended_split (pys "no marker here") (pys "subject: x")
    (pys " Original ") (by decide) (by decide)
  exact ⟨by decide, by decide, hc.1, hc.2⟩

/-- Specialisation of `foldl_pair` to the few-shot prompt fold. -/
theorem foldl_pair_examples (l : List (PyStr × PyStr)) (b : PyStr) (st : BuildState) :
    l.foldl (fun acc ex =>
        (acc.1 ++ ("Subject: ").data ++ ex.1 ++ ("\nMessage:\n").data ++ ex.2 ++ ("\n\n").data,
         acc.2)) (b, st) =
      (l.foldl (fun p ex =>
        p ++ ("Subject: ").data ++ ex.1 ++ ("\nMessage:\n").data ++ ex.2 ++ ("\n\n").data) b,
       st) :=
  foldl_pair
    (fun p ex =>
      p ++ ("Subject: ").data ++ ex.1 ++ ("\nMessage:\n").data ++ ex.2 ++ ("\n\n").data)
    l b st

/-- Specialisation of `foldl_pair` to the context fold. -/
theorem foldl_pair_context (l : List (PyStr × PyStr)) (b : PyStr) (st : BuildState) :
    l.foldl (fun acc kv =>
        (acc.1 ++ (" ").data ++ kv.1 ++ ("=").data ++ kv.2 ++ (";").data, acc.2)) (b, st) =
      (l.foldl (fun p kv =>
        p ++ (" ").data ++ kv.1 ++ ("=").data ++ kv.2 ++ (";").data) b, st) :=
  foldl_pair
    (fun p kv => p ++ (" ").data ++ kv.1 ++ ("=").data ++ kv.2 ++ (";").data)
    l b st

/-- C10: `build_prompt` leaves the ambient state — the caller's context
mapping, the template registry and the few-shot example set — exactly as it
found it, and produces the same prompt as the pure reading of that state. -/
theorem c10_frame (subject template_key : PyStr) (st : BuildState) :
    (build_prompt_st subject template_key st).2 = st ∧
    (build_prompt_st subject template_key st).1 =
      build_prompt_core st.few_shot_examples st.templates subject template_key
        st.context := by
  simp only [build_prompt_st, build_prompt_core, foldl_pair_examples,
    foldl_pair_context]
  cases h : st.templates.lookup template_key with
  | none => simp [h]
  | some t =>
    by_cases hc : st.context.isEmpty
    · simp [h, hc]
    · simp [h, hc]
